import Mathlib

/-!
Verification of the job-collector classification and persistence pipeline.

Shallow embedding of:
  - src/utils/gemini.js : classifyJob, performFallbackClassification,
    chunkArray, classifyAndInsertInBatches
  - the Google Sheets store writer (sheets.js) : insertJobs

External effects (HTTP fetch, the JSON parser applied to the model reply,
the spreadsheet API) are modelled as explicit inputs; machine state (the
sheet) is passed explicitly.
-/

/-! ## String helpers, JS truthiness and the verdict data model -/

/-- Check that the first list is an initial segment of the second. -/
def matchAt : List Char → List Char → Bool
  | [], _ => true
  | _ :: _, [] => false
  | n :: ns, h :: hs => n == h && matchAt ns hs

/-- Check that the first list occurs contiguously inside the second. -/
def findSub : List Char → List Char → Bool
  | needle, [] => needle.isEmpty
  | needle, h :: hs => matchAt needle (h :: hs) || findSub needle hs

/-- Model of JS `text.includes(needle)`. -/
def strIncludes (hay needle : String) : Bool :=
  findSub needle.data hay.data

/-- Model of the JS idiom `s || d` for strings: an empty (falsy) string is
replaced by the default. -/
def jsOrStr (s d : String) : String :=
  if s = "" then d else s

/-- Model of JS `text.toLowerCase()`, character by character. (The inputs
of interest are ASCII, where JS and Unicode lower-casing agree.) -/
def strToLower (s : String) : String :=
  ⟨s.data.map Char.toLower⟩

structure ClassificationResult where
  success : Bool
  classification : String
  summary : String
  matchedSkills : List String
  concerns : List String
  experienceLevel : String
  fallback : Bool := false
  error : Option String := none
  deriving Repr, DecidableEq

/-- Good-fit keyword list from performFallbackClassification. -/
def goodFitKeywords : List String :=
  ["node.js", "nodejs", "express", "react", "mongodb", "postgresql",
   "mern", "pern", "javascript", "typescript", "docker", "aws"]

/-- Bad-fit keyword list from performFallbackClassification. -/
def badKeywords : List String :=
  ["php", "java", "spring", ".net", "c#", "python", "django",
   "senior", "3+ years", "4+ years", "5+ years"]

/-- Model of performFallbackClassification: lower-case the concatenation of
title and description, filter both keyword lists by substring containment,
then decide the label. The JS let-mutation of `classification` and
`summary` is rendered as an if-chain with the same conditions. -/
def performFallbackClassification (jobTitle jobDescription : String) :
    ClassificationResult :=
  let text := strToLower (jobTitle ++ " " ++ jobDescription)
  let goodMatches := goodFitKeywords.filter (fun keyword => strIncludes text keyword)
  let badMatches := badKeywords.filter (fun keyword => strIncludes text keyword)
  if goodMatches.length ≥ 2 ∧ badMatches.length = 0 then
    { success := true
      classification := "GOOD_FIT"
      summary := "Matches key technologies: " ++ String.intercalate ", " goodMatches
      matchedSkills := goodMatches
      concerns := badMatches
      experienceLevel := "unclear"
      fallback := true }
  else if goodMatches.length ≥ 1 then
    { success := true
      classification := "MAYBE_FIT"
      summary := "Partial match with some relevant skills: " ++
        String.intercalate ", " goodMatches
      matchedSkills := goodMatches
      concerns := badMatches
      experienceLevel := "unclear"
      fallback := true }
  else
    { success := true
      classification := "IGNORE"
      summary := "Fallback classification - unable to process with AI"
      matchedSkills := goodMatches
      concerns := badMatches
      experienceLevel := "unclear"
      fallback := true }

/-- Decision rule as worded by the specification: count good-fit and
bad-fit keyword hits on the lower-cased concatenation of title and
description; at least 2 good hits and 0 bad hits give GOOD_FIT, otherwise
at least 1 good hit gives MAYBE_FIT, otherwise IGNORE. -/
def specFallbackLabel (title desc : String) : String :=
  let text := strToLower (title ++ " " ++ desc)
  let goodHits := goodFitKeywords.countP (fun keyword => strIncludes text keyword)
  let badHits := badKeywords.countP (fun keyword => strIncludes text keyword)
  if goodHits ≥ 2 ∧ badHits = 0 then "GOOD_FIT"
  else if goodHits ≥ 1 then "MAYBE_FIT"
  else "IGNORE"

/-! ## AI classifier, classifyJob (src/utils/gemini.js lines 9-170)

The external effects are explicit inputs:
  - `FetchResult` is the outcome of the `fetch` call: a thrown network
    exception, or an HTTP response;
  - `HttpResponse.body` is the outcome of `response.json()` together with
    the optional-chaining extraction of
    `data.candidates[0].content.parts[0].text` (`candidateText = none`
    when the chain hits a missing field);
  - `parseAi` is the outcome of stripping markdown fences from the reply
    text and applying `JSON.parse` to it, as a function of that text. -/

/-- Parsed body of a successful HTTP response. JS truthiness of the
extracted text is checked where the source checks it. -/
structure GeminiBody where
  candidateText : Option String
  deriving Repr, DecidableEq

/-- An HTTP response as classifyJob consumes it: `ok` and `status` flags,
the raw error text, and the outcome of `response.json()`. -/
structure HttpResponse where
  ok : Bool
  status : Nat
  bodyText : String
  body : Except String GeminiBody

/-- Outcome of the `fetch` call: a rejected promise or a response. -/
inductive FetchResult where
  | fail (msg : String)
  | success (r : HttpResponse)

/-- Outcome of `JSON.parse` on the cleaned model reply: a parse failure,
or an object with the five optional fields the source reads. -/
inductive AiParse where
  | failure (msg : String)
  | object (classification summary : Option String)
      (matchedSkills concerns : Option (List String))
      (experienceLevel : Option String)

/-- Valid classification labels (src/utils/gemini.js line 132). -/
def validClassifications : List String :=
  ["GOOD_FIT", "MAYBE_FIT", "IGNORE"]

/-- Model of classifyJob. Returns `Except.error` where the JS function
throws to its caller, `Except.ok` where it returns a value. Every `throw`
that happens inside the outer `try` is rendered as a direct jump to the
corresponding `catch` handler (fallback plus attached error message for
the outer catch, plain fallback for the inner parse catch). -/
def classifyJob (parseAi : String → AiParse) (apiKey : String)
    (fetched : FetchResult) (jobTitle jobDescription company : String) :
    Except String ClassificationResult :=
  if apiKey = "" then
    Except.error "Missing Gemini API key"
  else
    Except.ok <|
      match fetched with
      | FetchResult.fail msg =>
          -- fetch threw: outer catch returns the fallback with the error
          let fallbackResult := performFallbackClassification jobTitle jobDescription
          { fallbackResult with error := some msg }
      | FetchResult.success r =>
        if r.ok = false then
          if r.status = 429 then
            -- quota exceeded: backoff, then return the fallback directly
            performFallbackClassification jobTitle jobDescription
          else
            -- `throw new Error("Gemini API error: ...")`, caught by the outer catch
            let fallbackResult := performFallbackClassification jobTitle jobDescription
            { fallbackResult with
                error := some ("Gemini API error: " ++ toString r.status ++ " - " ++ r.bodyText) }
        else
          match r.body with
          | Except.error msg =>
              -- response.json() threw, caught by the outer catch
              let fallbackResult := performFallbackClassification jobTitle jobDescription
              { fallbackResult with error := some msg }
          | Except.ok data =>
            if (data.candidateText.getD "") = "" then
              -- `throw new Error("Invalid response from Gemini API")`, outer catch
              let fallbackResult := performFallbackClassification jobTitle jobDescription
              { fallbackResult with error := some "Invalid response from Gemini API" }
            else
              let aiResponse := (data.candidateText.getD "").trim
              match parseAi aiResponse with
              | AiParse.failure _ =>
                  -- JSON.parse threw, caught by the inner parse catch
                  performFallbackClassification jobTitle jobDescription
              | AiParse.object cls summ skills concs exp =>
                if (cls.getD "") = "" ∨ (summ.getD "") = "" then
                  -- `throw new Error("Missing required fields ...")`,
                  -- raised inside the inner try, so the inner catch handles it
                  performFallbackClassification jobTitle jobDescription
                else
                  let c := cls.getD ""
                  let c := if validClassifications.contains c then c else "MAYBE_FIT"
                  { success := true
                    classification := c
                    summary := summ.getD ""
                    matchedSkills := skills.getD []
                    concerns := concs.getD []
                    experienceLevel := jsOrStr (exp.getD "") "unclear"
                    fallback := false
                    error := none }

/-! ## Postings, the sheet store and insertJobs (sheets.js)

A `Job` is a posting together with the classification fields that
classifyAndInsertInBatches spreads onto it; JS-absent fields default to
falsy values. A `SheetRow` is one persisted row (columns A-H). The sheet
itself is the list of data rows below the header; `initializeSheet`
guarantees the header row, which is therefore implicit in the model. -/

structure Job where
  title : String := ""
  company : String := ""
  location : String := ""
  description : String := ""
  applyLink : String := ""
  aiClassification : String := ""
  aiSummary : String := ""
  matchedSkills : List String := []
  concerns : List String := []
  experienceLevel : String := ""
  processed : Bool := false
  error : Option String := none
  deriving Repr, DecidableEq

structure SheetRow where
  date : String
  company : String
  role : String
  location : String
  applyLink : String
  aiClassification : String
  aiSummary : String
  status : String
  deriving Repr, DecidableEq

/-- Result object of insertJobs. The JS object carries `duplicates` only
on some paths; absence is `none`. (The `range` field returned by the
append API response is not modelled.) -/
structure InsertResult where
  success : Bool
  inserted : Nat
  duplicates : Option Nat := none
  message : Option String := none
  error : Option String := none
  deriving Repr, DecidableEq

/-- The apply-link column of the persisted data rows. -/
def linksOf (rows : List SheetRow) : List String :=
  rows.map SheetRow.applyLink

/-- Model of the existing-links set built by insertJobs: read column E
(header cell first, then the data rows), keep the truthy values that are
not the header literal. -/
def existingLinksOf (rows : List SheetRow) : List String :=
  ("Apply Link" :: linksOf rows).filter
    (fun link => !(link == "") && !(link == "Apply Link"))

/-- Model of the row built for one job (sheets.js lines 142-151); `today`
stands for `new Date().toLocaleDateString("en-IN")`. -/
def rowOfJob (today : String) (job : Job) : SheetRow :=
  { date := today
    company := jsOrStr job.company "N/A"
    role := jsOrStr job.title "N/A"
    location := jsOrStr job.location "N/A"
    applyLink := jsOrStr job.applyLink "N/A"
    aiClassification := jsOrStr job.aiClassification "UNPROCESSED"
    aiSummary := jsOrStr job.aiSummary "Not processed"
    status := "New" }

/-- Model of insertJobs: state-passing over the list of persisted rows.
The spreadsheet API itself is modelled as succeeding (the credentials are
configured and the remote calls return), so the catch branch of the JS
function is unreachable here; header initialization and conditional
formatting are side effects without bearing on rows or result. A JS null
or undefined `jobs` argument takes the same branch as the empty list. -/
def insertJobs (today : String) (jobs : List Job) (rows : List SheetRow) :
    InsertResult × List SheetRow :=
  if jobs.isEmpty then
    ({ success := true, inserted := 0, message := some "No jobs to insert" }, rows)
  else
    let existingLinks := existingLinksOf rows
    let newJobs := jobs.filter (fun job => !(existingLinks.contains job.applyLink))
    if newJobs.isEmpty then
      ({ success := true, inserted := 0, duplicates := some jobs.length,
         message := some "All jobs already exist in sheet" }, rows)
    else
      let newRows := newJobs.map (rowOfJob today)
      ({ success := true, inserted := newRows.length,
         duplicates := some (jobs.length - newJobs.length),
         message := some ("Successfully inserted " ++ toString newRows.length ++ " jobs") },
       rows ++ newRows)

/-! ## Batch pipeline (src/utils/gemini.js lines 278-349) -/

/-- Model of chunkArray: consecutive slices of the given size, written
with a fuel argument (the input length) so the recursion is structural;
for a positive size every iteration consumes at least one element, so
the fuel is never exhausted. The JS loop
`for (i = 0; i < length; i += size)` never terminates when `size` is
zero and the array is nonempty; that configuration is excluded by the
positive-batch-size hypotheses of the claims. -/
def chunkArrayAux : Nat → List Job → Nat → List (List Job)
  | 0, _, _ => []
  | _ + 1, [], _ => []
  | fuel + 1, j :: js, size =>
      (j :: js).take size :: chunkArrayAux fuel ((j :: js).drop size) size

/-- Consecutive slices of the given size (see chunkArrayAux). -/
def chunkArray (l : List Job) (size : Nat) : List (List Job) :=
  chunkArrayAux l.length l size

/-- One iteration of the inner classification loop of
classifyAndInsertInBatches (lines 295-331): `classify` stands for the
awaited `classifyJob` call on the job, `Except.error` for a thrown
exception. The catch branch spreads the fallback verdict onto the job,
appends " (fallback used)" to the summary, and tags it processed with the
error message. -/
def processItem (classify : Job → Except String ClassificationResult)
    (job : Job) : Job :=
  match classify job with
  | Except.ok result =>
      { job with
          aiClassification := result.classification
          aiSummary := result.summary
          matchedSkills := result.matchedSkills
          concerns := result.concerns
          experienceLevel := result.experienceLevel
          processed := true }
  | Except.error msg =>
      let fallbackResult := performFallbackClassification job.title job.description
      { job with
          aiClassification := fallbackResult.classification
          aiSummary := fallbackResult.summary ++ " (fallback used)"
          matchedSkills := fallbackResult.matchedSkills
          concerns := fallbackResult.concerns
          experienceLevel := fallbackResult.experienceLevel
          processed := true
          error := some msg }

/-- The classified batch accumulated by the inner loop, in input order. -/
def processBatch (classify : Job → Except String ClassificationResult)
    (batch : List Job) : List Job :=
  batch.map (processItem classify)

/-- One iteration of the outer batch loop. After the try/catch around the
insertJobs call (whose outcome is discarded either way), the source logs
`insertResult.inserted` again at top level of the loop body; but
`insertResult` was declared with `const` inside the try block and is not
in scope there, so that line throws a ReferenceError before
`allResults.push(...classifiedBatch)` can run. -/
def runBatch (classify : Job → Except String ClassificationResult)
    (insert : List Job → Except String InsertResult)
    (batch : List Job) : Except String (List Job) :=
  let classifiedBatch := processBatch classify batch
  let _insertOutcome := insert classifiedBatch
  Except.error "ReferenceError: insertResult is not defined"

/-- The outer loop over the batches, accumulating `allResults`; an
uncaught exception in an iteration propagates out of the whole function. -/
def loopBatches (classify : Job → Except String ClassificationResult)
    (insert : List Job → Except String InsertResult) :
    List (List Job) → List Job → Except String (List Job)
  | [], allResults => Except.ok allResults
  | batch :: rest, allResults =>
    match runBatch classify insert batch with
    | Except.error e => Except.error e
    | Except.ok classifiedBatch =>
        loopBatches classify insert rest (allResults ++ classifiedBatch)

/-- Model of classifyAndInsertInBatches. -/
def classifyAndInsertInBatches (classify : Job → Except String ClassificationResult)
    (insert : List Job → Except String InsertResult)
    (jobs : List Job) (batchSize : Nat) : Except String (List Job) :=
  loopBatches classify insert (chunkArray jobs batchSize) []

/-! ## Concrete sample inputs used by witnesses and counterexamples -/

/-- A posting whose apply-link is the header literal. -/
def headerLinkJob : Job :=
  { applyLink := "Apply Link" }

/-- A sample posting with a sane fresh apply-link. -/
def jobA : Job :=
  { title := "Backend Developer", company := "Acme", location := "Remote",
    description := "node.js api", applyLink := "https://jobs.example/a" }

/-- A second sample posting. -/
def jobB : Job :=
  { title := "Platform Engineer", company := "Beta", location := "Remote",
    description := "react spa", applyLink := "https://jobs.example/b" }

/-- A third sample posting. -/
def jobC : Job :=
  { title := "API Developer", company := "Gamma", location := "India",
    description := "express service", applyLink := "https://jobs.example/c" }

/-- A persisted row with link L1. -/
def rowL1 : SheetRow :=
  { date := "2025-01-01", company := "Acme", role := "Dev", location := "Remote",
    applyLink := "https://jobs.example/l1", aiClassification := "GOOD_FIT",
    aiSummary := "s", status := "New" }

/-- A persisted row with link L2. -/
def rowL2 : SheetRow :=
  { date := "2025-01-01", company := "Beta", role := "Dev", location := "Remote",
    applyLink := "https://jobs.example/l2", aiClassification := "MAYBE_FIT",
    aiSummary := "s", status := "New" }

/-- A posting whose link equals the persisted L1. -/
def jobL1 : Job :=
  { applyLink := "https://jobs.example/l1" }

/-- A posting with the fresh link L3. -/
def jobL3 : Job :=
  { applyLink := "https://jobs.example/l3" }

/-- A posting that appears twice in one input batch. -/
def dupJob : Job :=
  { applyLink := "https://example.com/x" }

/-- A parse oracle representing a reply that is valid JSON with all
fields present and a recognized label. -/
def parseGood : String → AiParse := fun _ =>
  AiParse.object (some "GOOD_FIT") (some "Strong MERN match")
    (some ["react", "node.js"]) (some []) (some "junior")

/-- A parse oracle representing a reply whose label is not one of the
three valid labels. -/
def parseUnknownLabel : String → AiParse := fun _ =>
  AiParse.object (some "RUST_DEV") (some "summary") none none none

/-- A well-formed HTTP 200 response with a nonempty candidate text. -/
def okResponse : HttpResponse :=
  { ok := true, status := 200, bodyText := "",
    body := Except.ok { candidateText := some "reply" } }

/-- A fetch that succeeds with the well-formed response. -/
def fetchOk : FetchResult := FetchResult.success okResponse

/-- A classifier stub whose calls always succeed. -/
def stubClassifyOk : Job → Except String ClassificationResult := fun _ =>
  Except.ok { success := true, classification := "GOOD_FIT", summary := "ok",
              matchedSkills := [], concerns := [], experienceLevel := "junior" }

/-- A store-writer stub whose calls always succeed. -/
def stubInsertOk : List Job → Except String InsertResult := fun jobs =>
  Except.ok { success := true, inserted := jobs.length, duplicates := some 0 }

/-- A store-writer stub that throws exactly for the batch containing the
second posting and succeeds on every other batch. -/
def stubInsertFailSecond : List Job → Except String InsertResult := fun jobs =>
  if jobs.any (fun j => j.applyLink = "https://jobs.example/b") then
    Except.error "insert failed"
  else
    Except.ok { success := true, inserted := jobs.length, duplicates := some 0 }

/-- A classifier stub whose calls always throw. -/
def failingClassify : Job → Except String ClassificationResult := fun _ =>
  Except.error "boom"

/-- A posting mentioning only the keyword docker. -/
def dockerPosting : Job :=
  { title := "docker", description := "", applyLink := "https://jobs.example/d" }

/-! ## Claims and supporting lemmas -/

/-- C6: the fallback classifier implements exactly the specified decision
rule (at least 2 good-fit hits and 0 bad-fit hits give GOOD_FIT, else at
least 1 good-fit hit gives MAYBE_FIT, else IGNORE, on the lower-cased
concatenation of title and description), and on the three quoted sample
texts it yields GOOD_FIT, IGNORE and MAYBE_FIT respectively. -/
theorem fallback_decision_rule :
    (∀ title desc,
      (performFallbackClassification title desc).classification =
        specFallbackLabel title desc) ∧
    (performFallbackClassification "node.js react" "").classification = "GOOD_FIT" ∧
    (performFallbackClassification "php senior" "").classification = "IGNORE" ∧
    (performFallbackClassification "docker" "").classification = "MAYBE_FIT" := by
  refine ⟨fun title desc => ?_, by decide, by decide, by decide⟩
  simp only [performFallbackClassification, specFallbackLabel,
    List.countP_eq_length_filter]
  split
  · rfl
  · split <;> rfl

/-- Membership in a list of strings coincides with the Bool contains used
to model JS `Set.prototype.has`. -/
lemma contains_iff_mem {l : List String} {x : String} :
    l.contains x = true ↔ x ∈ l :=
  List.elem_iff

/-- Shape of the existing-links set: exactly the persisted links that are
nonempty and differ from the header literal. -/
lemma mem_existingLinksOf {rows : List SheetRow} {l : String} :
    l ∈ existingLinksOf rows ↔ l ∈ linksOf rows ∧ l ≠ "" ∧ l ≠ "Apply Link" := by
  simp only [existingLinksOf, List.mem_filter, List.mem_cons, Bool.and_eq_true,
    Bool.not_eq_true', beq_eq_false_iff_ne, ne_eq]
  constructor
  · rintro ⟨h1 | h1, h2, h3⟩
    · exact absurd h1 h3
    · exact ⟨h1, h2, h3⟩
  · rintro ⟨h1, h2, h3⟩
    exact ⟨Or.inr h1, h2, h3⟩

/-- A nonempty apply-link survives the N/A substitution unchanged. -/
lemma rowOfJob_applyLink {today : String} {job : Job} (h : job.applyLink ≠ "") :
    (rowOfJob today job).applyLink = job.applyLink := by
  simp [rowOfJob, jsOrStr, h]

/-- When every input link is nonempty, not the header literal, and not
yet persisted, insertJobs appends a row per job and reports zero
duplicates. -/
lemma insertJobs_fresh (today : String) (jobs : List Job) (rows : List SheetRow)
    (hne : jobs ≠ [])
    (hfresh : ∀ j ∈ jobs, j.applyLink ≠ "" ∧ j.applyLink ≠ "Apply Link" ∧
      j.applyLink ∉ linksOf rows) :
    insertJobs today jobs rows =
      ({ success := true, inserted := jobs.length, duplicates := some 0,
         message := some ("Successfully inserted " ++ toString jobs.length ++ " jobs") },
       rows ++ jobs.map (rowOfJob today)) := by
  have hempty : jobs.isEmpty = false := List.isEmpty_eq_false.mpr hne
  have hfilter :
      jobs.filter (fun job => !((existingLinksOf rows).contains job.applyLink)) = jobs := by
    rw [List.filter_eq_self]
    intro j hj
    rcases hfresh j hj with ⟨h1, h2, h3⟩
    simp only [Bool.not_eq_true']
    rw [Bool.eq_false_iff]
    intro hc
    exact h3 (mem_existingLinksOf.mp (contains_iff_mem.mp hc)).1
  simp only [insertJobs]
  rw [hfilter]
  simp [hempty, Nat.sub_self]

/-- When every input link is already in the existing-links set, insertJobs
leaves the sheet unchanged and reports every job as a duplicate. -/
lemma insertJobs_all_dup (today : String) (jobs : List Job) (rows : List SheetRow)
    (hne : jobs ≠ [])
    (hdup : ∀ j ∈ jobs, j.applyLink ∈ existingLinksOf rows) :
    insertJobs today jobs rows =
      ({ success := true, inserted := 0, duplicates := some jobs.length,
         message := some "All jobs already exist in sheet" }, rows) := by
  have hempty : jobs.isEmpty = false := List.isEmpty_eq_false.mpr hne
  have hfilter :
      jobs.filter (fun job => !((existingLinksOf rows).contains job.applyLink)) = [] := by
    rw [List.filter_eq_nil_iff]
    intro j hj
    simp only [Bool.not_eq_true', Bool.not_eq_false]
    exact contains_iff_mem.mpr (hdup j hj)
  simp only [insertJobs]
  rw [hfilter]
  simp [hempty]

/-- C9 counterexample: on the empty input list, insertJobs returns early
with no `duplicates` field at all (undefined in JS, `none` here), not
`duplicates = 0` as claimed. -/
theorem insertJobs_empty_duplicates_absent :
    (insertJobs "2025-01-01" ([] : List Job) ([] : List SheetRow)).1.duplicates ≠
      some 0 := by
  decide

/-- C9 amended: on an empty (or JS null/undefined) input list, insertJobs
returns success with `inserted = 0` and an absent `duplicates` field,
before any spreadsheet client is created, and leaves the store untouched. -/
theorem insertJobs_empty_noop (today : String) (rows : List SheetRow) :
    insertJobs today [] rows =
      ({ success := true, inserted := 0, duplicates := none,
         message := some "No jobs to insert", error := none }, rows) := rfl

/-- C2 counterexample: a posting whose apply-link equals the header
literal "Apply Link" is filtered out of the existing-links set on the
second call, so it is inserted again: the second call returns
`inserted = 1`, not `inserted = 0, duplicates = 1`. -/
theorem insertJobs_header_link_cex :
    (insertJobs "d1" [headerLinkJob] []).1.inserted = 1 ∧
    (insertJobs "d2" [headerLinkJob] (insertJobs "d1" [headerLinkJob] []).2).1.inserted
      ≠ 0 := by
  decide

/-- C2 amended: for input lists of postings whose apply-links are
pairwise distinct, nonempty, different from the header literal
"Apply Link" and not yet persisted, the first insert reports
`inserted = N, duplicates = 0` and the second insert of the same list
reports `inserted = 0, duplicates = N`; and when the store holds two rows
with distinct links and the input holds one persisted link and one fresh
sane link, exactly the fresh row is appended and `duplicates = 1`. -/
theorem insertJobs_idempotent_dedup :
    (∀ (today today2 : String) (jobs : List Job) (rows : List SheetRow),
      jobs ≠ [] →
      (jobs.map Job.applyLink).Nodup →
      (∀ j ∈ jobs, j.applyLink ≠ "" ∧ j.applyLink ≠ "Apply Link" ∧
        j.applyLink ∉ linksOf rows) →
      ((insertJobs today jobs rows).1.inserted = jobs.length ∧
       (insertJobs today jobs rows).1.duplicates = some 0 ∧
       (insertJobs today2 jobs (insertJobs today jobs rows).2).1.inserted = 0 ∧
       (insertJobs today2 jobs (insertJobs today jobs rows).2).1.duplicates =
         some jobs.length)) ∧
    (∀ (today : String) (r1 r2 : SheetRow) (j1 j3 : Job),
      r1.applyLink ≠ r2.applyLink →
      j1.applyLink = r1.applyLink →
      j1.applyLink ≠ "" → j1.applyLink ≠ "Apply Link" →
      j3.applyLink ≠ "" → j3.applyLink ≠ "Apply Link" →
      j3.applyLink ≠ r1.applyLink → j3.applyLink ≠ r2.applyLink →
      insertJobs today [j1, j3] [r1, r2] =
        ({ success := true, inserted := 1, duplicates := some 1,
           message := some ("Successfully inserted " ++ toString (1 : Nat) ++ " jobs") },
         [r1, r2, rowOfJob today j3])) := by
  constructor
  · intro today today2 jobs rows hne hnodup hfresh
    have h1 := insertJobs_fresh today jobs rows hne hfresh
    have hdup : ∀ j ∈ jobs,
        j.applyLink ∈ existingLinksOf (rows ++ jobs.map (rowOfJob today)) := by
      intro j hj
      rcases hfresh j hj with ⟨hne1, hnh, -⟩
      rw [mem_existingLinksOf]
      refine ⟨?_, hne1, hnh⟩
      simp only [linksOf, List.map_append, List.mem_append, List.map_map]
      right
      exact List.mem_map.mpr ⟨j, hj, by
        simp only [Function.comp_apply]
        exact rowOfJob_applyLink hne1⟩
    have h2 := insertJobs_all_dup today2 jobs (rows ++ jobs.map (rowOfJob today)) hne hdup
    refine ⟨by rw [h1], by rw [h1], ?_, ?_⟩
    · rw [h1]
      simp only []
      rw [h2]
    · rw [h1]
      simp only []
      rw [h2]
  · intro today r1 r2 j1 j3 h12 hj1 hj1ne hj1nh hj3ne hj3nh h31 h32
    have hm1 : j1.applyLink ∈ existingLinksOf [r1, r2] :=
      mem_existingLinksOf.mpr ⟨by simp [linksOf, hj1], hj1ne, hj1nh⟩
    have hm3 : j3.applyLink ∉ existingLinksOf [r1, r2] := by
      intro hc
      rcases mem_existingLinksOf.mp hc with ⟨hmem, -, -⟩
      simp only [linksOf, List.map_cons, List.map_nil, List.mem_cons,
        List.not_mem_nil, or_false] at hmem
      rcases hmem with h | h
      · exact h31 h
      · exact h32 h
    have hfilter :
        [j1, j3].filter (fun job => !((existingLinksOf [r1, r2]).contains job.applyLink))
          = [j3] := by
      simp [List.filter_cons, hm1, hm3]
    simp only [insertJobs]
    rw [hfilter]
    simp

/-- Witness for the amended C2 theorem at concrete inputs. -/
theorem insertJobs_idempotent_dedup_witness :
    ((insertJobs "d1" [jobA] []).1.inserted = 1 ∧
     (insertJobs "d1" [jobA] []).1.duplicates = some 0 ∧
     (insertJobs "d2" [jobA] (insertJobs "d1" [jobA] []).2).1.inserted = 0 ∧
     (insertJobs "d2" [jobA] (insertJobs "d1" [jobA] []).2).1.duplicates = some 1) ∧
    insertJobs "d1" [jobL1, jobL3] [rowL1, rowL2] =
      ({ success := true, inserted := 1, duplicates := some 1,
         message := some ("Successfully inserted " ++ toString (1 : Nat) ++ " jobs") },
       [rowL1, rowL2, rowOfJob "d1" jobL3]) :=
  ⟨insertJobs_idempotent_dedup.1 "d1" "d2" [jobA] [] (by decide) (by decide)
      (by decide),
   insertJobs_idempotent_dedup.2 "d1" rowL1 rowL2 jobL1 jobL3 (by decide) (by decide)
      (by decide) (by decide) (by decide) (by decide) (by decide) (by decide)⟩

/-- C7 counterexample: insertJobs checks the input only against the
already persisted links, not against the rest of the same batch, so a
batch holding the same fresh link twice appends two rows with equal
apply-links into a store whose links were pairwise distinct. -/
theorem insertJobs_intra_batch_duplicate :
    (linksOf ([] : List SheetRow)).Nodup ∧
    ¬ (linksOf (insertJobs "2025-01-01" [dupJob, dupJob] []).2).Nodup := by
  decide

/-- C7 amended: insertJobs preserves pairwise-distinct persisted
apply-links provided the input batch itself has pairwise-distinct
apply-links, each nonempty and different from the header literal
"Apply Link". -/
theorem insertJobs_preserves_link_nodup (today : String) (jobs : List Job)
    (rows : List SheetRow)
    (hrows : (linksOf rows).Nodup)
    (hjobs : (jobs.map Job.applyLink).Nodup)
    (hsane : ∀ j ∈ jobs, j.applyLink ≠ "" ∧ j.applyLink ≠ "Apply Link") :
    (linksOf (insertJobs today jobs rows).2).Nodup := by
  by_cases hne : jobs = []
  · subst hne
    simpa [insertJobs] using hrows
  · have hempty : jobs.isEmpty = false := List.isEmpty_eq_false.mpr hne
    simp only [insertJobs, hempty, Bool.false_eq_true, if_false]
    split
    · exact hrows
    · simp only [linksOf, List.map_append, List.map_map]
      rw [List.nodup_append]
      have hlinks :
          (jobs.filter (fun job => !((existingLinksOf rows).contains job.applyLink))).map
              (SheetRow.applyLink ∘ rowOfJob today) =
            (jobs.filter (fun job => !((existingLinksOf rows).contains job.applyLink))).map
              Job.applyLink :=
        List.map_congr_left (fun j hj => by
          simp only [Function.comp_apply]
          exact rowOfJob_applyLink (hsane j (List.mem_of_mem_filter hj)).1)
      rw [hlinks]
      refine ⟨hrows, ?_, ?_⟩
      · exact ((List.filter_sublist jobs).map Job.applyLink).nodup hjobs
      · intro x hx hx2
        rcases List.mem_map.mp hx2 with ⟨j, hjf, hval⟩
        rcases List.mem_filter.mp hjf with ⟨hj, hpj⟩
        rcases hsane j hj with ⟨h1, h2⟩
        have hmem : j.applyLink ∈ existingLinksOf rows :=
          mem_existingLinksOf.mpr ⟨by rw [hval]; exact hx, h1, h2⟩
        have hcon : (existingLinksOf rows).contains j.applyLink = true :=
          contains_iff_mem.mpr hmem
        rw [hcon] at hpj
        exact absurd hpj (by decide)

/-- Witness for the amended C7 theorem at concrete inputs. -/
theorem insertJobs_preserves_link_nodup_witness :
    (linksOf (insertJobs "2025-01-01" [jobA] []).2).Nodup :=
  insertJobs_preserves_link_nodup "2025-01-01" [jobA] [] (by decide) (by decide)
    (by decide)

/-- Every fallback verdict carries success = true. -/
lemma performFallback_success (t d : String) :
    (performFallbackClassification t d).success = true := by
  simp only [performFallbackClassification]
  split
  · rfl
  · split <;> rfl

/-- Every fallback verdict carries one of the three valid labels. -/
lemma performFallback_label_mem (t d : String) :
    (performFallbackClassification t d).classification ∈ validClassifications := by
  simp only [performFallbackClassification]
  split
  · simp [validClassifications]
  · split <;> simp [validClassifications]

/-- C1: with a configured (nonempty) API key, classifyJob always returns
a verdict — every failure path degrades to the fallback instead of
raising — while a missing key raises "Missing Gemini API key"
immediately. -/
theorem classifyJob_never_raises :
    (∀ (parseAi : String → AiParse) (apiKey : String) (fetched : FetchResult)
       (t d c : String), apiKey ≠ "" →
      (classifyJob parseAi apiKey fetched t d c).isOk = true) ∧
    (∀ (parseAi : String → AiParse) (fetched : FetchResult) (t d c : String),
      classifyJob parseAi "" fetched t d c =
        Except.error "Missing Gemini API key") := by
  constructor
  · intro parseAi apiKey fetched t d c h
    simp only [classifyJob, if_neg h]
    rfl
  · intro parseAi fetched t d c
    rfl

/-- Witness for C1 at concrete inputs. -/
theorem classifyJob_never_raises_witness :
    (classifyJob parseGood "key" fetchOk "T" "D" "C").isOk = true ∧
    classifyJob parseGood "" fetchOk "T" "D" "C" =
      Except.error "Missing Gemini API key" :=
  ⟨classifyJob_never_raises.1 parseGood "key" fetchOk "T" "D" "C" (by decide),
   classifyJob_never_raises.2 parseGood fetchOk "T" "D" "C"⟩

/-- C10: every value classifyJob returns has success = true, on the AI
path and on every degraded path alike. -/
theorem classifyJob_success_always_true (parseAi : String → AiParse)
    (apiKey : String) (fetched : FetchResult) (t d c : String)
    (r : ClassificationResult)
    (h : classifyJob parseAi apiKey fetched t d c = Except.ok r) :
    r.success = true := by
  by_cases hk : apiKey = ""
  · rw [classifyJob.eq_def, if_pos hk] at h
    exact absurd h (by simp)
  · rw [classifyJob.eq_def, if_neg hk] at h
    injection h with h
    subst h
    cases fetched with
    | fail msg => exact performFallback_success t d
    | success resp =>
      repeat' split
      all_goals try (dsimp only; repeat' split)
      all_goals first | rfl | exact performFallback_success t d

/-- Witness for C10: the theorem applied to a concrete successful call. -/
theorem classifyJob_success_always_true_witness :
    ({ success := true, classification := "GOOD_FIT", summary := "Strong MERN match",
       matchedSkills := ["react", "node.js"], concerns := [],
       experienceLevel := "junior", fallback := false, error := none } :
      ClassificationResult).success = true :=
  classifyJob_success_always_true parseGood "key" fetchOk "T" "D" "C" _ rfl

/-- C5: every verdict classifyJob returns carries one of the three valid
labels, and a parsed reply whose label is unrecognized ("RUST_DEV") is
coerced to MAYBE_FIT rather than returned or discarded. -/
theorem classifyJob_label_always_valid :
    (∀ (parseAi : String → AiParse) (apiKey : String) (fetched : FetchResult)
       (t d c : String) (r : ClassificationResult),
      classifyJob parseAi apiKey fetched t d c = Except.ok r →
      r.classification ∈ validClassifications) ∧
    validClassifications.contains "RUST_DEV" = false ∧
    classifyJob parseUnknownLabel "key" fetchOk "T" "D" "C" =
      Except.ok { success := true, classification := "MAYBE_FIT",
                  summary := "summary", matchedSkills := [], concerns := [],
                  experienceLevel := "unclear", fallback := false,
                  error := none } := by
  refine ⟨?_, by decide, rfl⟩
  intro parseAi apiKey fetched t d c r h
  by_cases hk : apiKey = ""
  · rw [classifyJob.eq_def, if_pos hk] at h
    exact absurd h (by simp)
  · rw [classifyJob.eq_def, if_neg hk] at h
    injection h with h
    subst h
    cases fetched with
    | fail msg => exact performFallback_label_mem t d
    | success resp =>
      repeat' split
      all_goals try (dsimp only; repeat' split)
      all_goals
        first
        | exact performFallback_label_mem t d
        | (rename_i hin
           exact contains_iff_mem.mp hin)
        | simp [validClassifications]

/-- Witness for C5: the membership conclusion at a concrete call whose
parsed label was unrecognized. -/
theorem classifyJob_label_always_valid_witness :
    ({ success := true, classification := "MAYBE_FIT", summary := "summary",
       matchedSkills := [], concerns := [], experienceLevel := "unclear",
       fallback := false, error := none } :
      ClassificationResult).classification ∈ validClassifications :=
  classifyJob_label_always_valid.1 parseUnknownLabel "key" fetchOk "T" "D" "C" _ rfl

/-- C3: even a one-posting run in which classification and persistence
both succeed returns no classified list at all: the loop body throws a
ReferenceError at the out-of-scope insertResult log before accumulating
the batch, so the output is an exception, not a sequence of length M. -/
theorem batch_run_throws_reference_error :
    classifyAndInsertInBatches stubClassifyOk stubInsertOk [jobA] 15 =
      Except.error "ReferenceError: insertResult is not defined" := rfl

/-- C4: in the claimed three-batch scenario where only the second batch's
insert throws, the run does not complete batches 1 and 3: it already
throws the ReferenceError during batch 1, so no batch results appear in
any aggregate output. -/
theorem batch_partial_failure_not_isolated :
    classifyAndInsertInBatches stubClassifyOk stubInsertFailSecond
      [jobA, jobB, jobC] 1 =
      Except.error "ReferenceError: insertResult is not defined" := rfl

/-- C8 counterexample: when classification of an item throws, the catch
branch of the inner loop tags the item processed = true (with the error
message attached), not processed = false as claimed. -/
theorem processBatch_processed_flag_cex :
    ¬ ((processBatch failingClassify [dockerPosting]).map Job.processed = [false]) := by
  decide

/-- C8 amended: a per-item classification exception does not abort the
batch: the output sequence keeps its length, the failing item stays at
its position carrying the fallback verdict and summary (suffixed with
" (fallback used)"), the thrown message in its error field, and the tag
processed = true. -/
theorem processBatch_item_failure
    (classify : Job → Except String ClassificationResult)
    (batch : List Job) (i : Nat) (msg : String) (j : Job)
    (hi : i < batch.length)
    (hj : batch.get ⟨i, hi⟩ = j)
    (hfail : classify j = Except.error msg) :
    (processBatch classify batch).length = batch.length ∧
    (processBatch classify batch).get? i = some (processItem classify j) ∧
    (processItem classify j).processed = true ∧
    (processItem classify j).error = some msg ∧
    (processItem classify j).aiClassification =
      (performFallbackClassification j.title j.description).classification ∧
    (processItem classify j).aiSummary =
      (performFallbackClassification j.title j.description).summary ++
        " (fallback used)" := by
  have hlen : (processBatch classify batch).length = batch.length := by
    simp [processBatch]
  have hget : (processBatch classify batch).get? i = some (processItem classify j) := by
    rw [processBatch, List.get?_map, List.get?_eq_get hi, hj]
    rfl
  have hitem :
      processItem classify j =
        { j with
            aiClassification :=
              (performFallbackClassification j.title j.description).classification
            aiSummary :=
              (performFallbackClassification j.title j.description).summary ++
                " (fallback used)"
            matchedSkills :=
              (performFallbackClassification j.title j.description).matchedSkills
            concerns := (performFallbackClassification j.title j.description).concerns
            experienceLevel :=
              (performFallbackClassification j.title j.description).experienceLevel
            processed := true
            error := some msg } := by
    rw [processItem, hfail]
  exact ⟨hlen, hget, by rw [hitem], by rw [hitem], by rw [hitem], by rw [hitem]⟩

/-- Witness for the amended C8 theorem at concrete inputs. -/
theorem processBatch_item_failure_witness :
    (processBatch failingClassify [dockerPosting]).length = 1 ∧
    (processBatch failingClassify [dockerPosting]).get? 0 =
      some (processItem failingClassify dockerPosting) ∧
    (processItem failingClassify dockerPosting).processed = true ∧
    (processItem failingClassify dockerPosting).error = some "boom" ∧
    (processItem failingClassify dockerPosting).aiClassification =
      (performFallbackClassification dockerPosting.title
        dockerPosting.description).classification ∧
    (processItem failingClassify dockerPosting).aiSummary =
      (performFallbackClassification dockerPosting.title
        dockerPosting.description).summary ++ " (fallback used)" :=
  processBatch_item_failure failingClassify [dockerPosting] 0 "boom" dockerPosting
    (by decide) rfl rfl
